import Mathlib

/-!
Shallow embedding of the notification-relay service in src/main.py.

The HTTP handler `notify` in main.py branches on the request method,
validates POST bodies, and schedules a coroutine `send_discord_message`
onto the event loop of the bot when that loop is running.  We embed the
handler as a pure function from the request (method, api-key header,
content-type flag, parsed JSON body) and the gateway-visible readiness
flag (the code checks that the bot loop exists and is running) to an
HTTP result carrying the status code, a tag for the response body, and
the scheduled delivery task, if any.  The coroutine is embedded as a
pure function from an environment of bot primitives (fetch_user,
user.send, get_channel, fetch_channel, channel.send, each of which may
raise a typed error) to the list of warning/error log events it emits
and the list of send operations it performs.  JSON object bodies are
modelled as association lists of string fields, which covers the whole
interface of section 6 of the design document (all fields are strings);
the get_json call is modelled by its four possible outcomes (raise on
an empty or unparseable body, a falsy value, a truthy non-dict value,
an object), and Python int() by an executable parser over the Unicode
decimal-digit and whitespace tables of CPython 3.11.
-/

namespace FSBot

/-- HTTP methods accepted by the /notify route of main.py. -/
inductive Method where
  | GET
  | HEAD
  | POST
  deriving DecidableEq, Repr

/-- A parsed JSON object body: an association list of string fields. -/
abbrev Json : Type := List (String × String)

/-- Field lookup, embedding dict.get(key) of Python: none when absent. -/
def jget (d : Json) (k : String) : Option String :=
  (d.find? (fun p => p.1 == k)).map (fun p => p.2)

/-- Python truthiness of an optional string: None and the empty string
are falsy, every other string is truthy. -/
def truthy : Option String → Bool
  | none => false
  | some s => !s.isEmpty

/-- Tags for the distinct response bodies produced by the notify
handler; errInternal is the catch-all 500 of main.py lines 241-244. -/
inductive RespBody where
  | getAwake
  | emptyBody
  | errNotJson
  | errEmptyJson
  | errMissingFields
  | queued
  | errLoopUnavailable
  | errInternal
  deriving DecidableEq, Repr

/-- The data captured by the send_discord_message closure when the
handler schedules it: the mode string, the composed full message, and
the raw user_id and channel_id strings from the body. -/
structure ScheduledTask where
  mode : String
  fullMessage : String
  user_id_str : Option String
  channel_id_str : Option String
  deriving DecidableEq, Repr

/-- Outcome of one HTTP call: status code, response body tag, and the
delivery task scheduled onto the bot loop, if any. -/
structure HttpResult where
  status : Nat
  body : RespBody
  sched : Option ScheduledTask
  deriving DecidableEq, Repr

/-- Outcome of request.get_json() on the body of a JSON-typed POST.
Flask get_json runs with its default silent=False here, so an empty or
unparseable body makes it raise BadRequest, which the outer except
clause of the handler (main.py lines 241-244) turns into a 500; a body
that parses is inspected by the handler for Python truthiness (line
120) and then for its fields via data.get (line 126), which raises
AttributeError, again a 500, when the parsed value is not a dict. -/
inductive JsonParse where
  | badRequest
  | falsyNonDict
  | truthyNonDict
  | obj (data : Json)
  deriving DecidableEq, Repr

/-- An inbound HTTP request as the handler observes it: the method, the
api-key header if present, whether the content type is JSON, and what
get_json does on the body.  The body field is irrelevant outside
JSON-typed POSTs. -/
structure Request where
  method : Method
  api_key : Option String
  is_json : Bool
  body : JsonParse
  deriving DecidableEq, Repr

/-- Message composition of main.py line 139: the message followed by a
blank line and the link when the link is truthy, the message alone
otherwise. -/
def full_message (message link : String) : String :=
  if !link.isEmpty then message ++ "\n\n" ++ link else message

/-- The delivery task the handler builds from a validated body: mode and
message are known truthy at this point, link defaults to the empty
string, the id fields are taken raw. -/
def mkTask (data : Json) : ScheduledTask :=
  { mode := (jget data "mode").getD ""
    fullMessage := full_message ((jget data "message").getD "") ((jget data "link").getD "")
    user_id_str := jget data "user_id"
    channel_id_str := jget data "channel_id" }

/-- Embedding of the notify route handler of main.py (lines 60-244).
GET and HEAD answer 200 with no api-key check.  For POST, the api-key
check of lines 98-108 is commented out in the source (lines 93-111, a
marked security bypass), so the handler proceeds regardless of the
secret and of the header.  A non-JSON content type gets 400; a body
get_json raises on gets 500 through the outer except clause, as does a
truthy non-dict value whose data.get raises; a falsy parsed value
(line 120: null, false, zero, an empty string, list or dict) gets the
400 of line 122; then missing or empty mode or message gets 400; and
finally, when the bot loop is running, the delivery is scheduled and
the handler answers 200, else 503. -/
def notify (_secret : String) (loopRunning : Bool) (req : Request) : HttpResult :=
  match req.method with
  | .GET => { status := 200, body := .getAwake, sched := none }
  | .HEAD => { status := 200, body := .emptyBody, sched := none }
  | .POST =>
    if !req.is_json then { status := 400, body := .errNotJson, sched := none }
    else
      match req.body with
      | .badRequest => { status := 500, body := .errInternal, sched := none }
      | .truthyNonDict => { status := 500, body := .errInternal, sched := none }
      | .falsyNonDict => { status := 400, body := .errEmptyJson, sched := none }
      | .obj data =>
        if data.isEmpty then { status := 400, body := .errEmptyJson, sched := none }
        else
          if !(truthy (jget data "mode") && truthy (jget data "message")) then
            { status := 400, body := .errMissingFields, sched := none }
          else
            if loopRunning then
              { status := 200, body := .queued, sched := some (mkTask data) }
            else
              { status := 503, body := .errLoopUnavailable, sched := none }

/-- Characters CPython int() strips around a decimal literal: its
transform step maps exactly these codepoints to a space (the ASCII
whitespace 9-13 and 32, next-line 0x85, no-break space 0xa0, ogham
space 0x1680, the 0x2000-0x200a spaces, line and paragraph separators
0x2028 and 0x2029, narrow no-break 0x202f, mathematical space 0x205f,
ideographic space 0x3000; CPython 3.11, Unicode 14 tables). -/
def isPySpace (c : Char) : Bool :=
  let n := c.toNat
  (9 ≤ n && n ≤ 13) || n == 32 || n == 0x85 || n == 0xa0 || n == 0x1680 ||
  (0x2000 ≤ n && n ≤ 0x200a) || n == 0x2028 || n == 0x2029 || n == 0x202f ||
  n == 0x205f || n == 0x3000

/-- First codepoint of every run of ten Unicode decimal digits
(category Nd; CPython 3.11, Unicode 14 tables).  CPython int() maps
the k-th codepoint of each run to the ASCII digit of value k. -/
def pyDigitRunStarts : List Nat :=
  [0x30, 0x660, 0x6f0, 0x7c0, 0x966, 0x9e6, 0xa66, 0xae6, 0xb66, 0xbe6,
   0xc66, 0xce6, 0xd66, 0xde6, 0xe50, 0xed0, 0xf20, 0x1040, 0x1090, 0x17e0,
   0x1810, 0x1946, 0x19d0, 0x1a80, 0x1a90, 0x1b50, 0x1bb0, 0x1c40, 0x1c50,
   0xa620, 0xa8d0, 0xa900, 0xa9d0, 0xa9f0, 0xaa50, 0xabf0, 0xff10, 0x104a0,
   0x10d30, 0x11066, 0x110f0, 0x11136, 0x111d0, 0x112f0, 0x11450, 0x114d0,
   0x11650, 0x116c0, 0x11730, 0x118e0, 0x11950, 0x11c50, 0x11d50, 0x11da0,
   0x16a60, 0x16ac0, 0x16b50, 0x1d7ce, 0x1d7d8, 0x1d7e2, 0x1d7ec, 0x1d7f6,
   0x1e140, 0x1e2f0, 0x1e950, 0x1fbf0]

/-- The decimal value CPython int() assigns to a character: its offset
within a run of ten Unicode decimal digits, none for a non-digit. -/
def pyDecimalVal (c : Char) : Option Nat :=
  (pyDigitRunStarts.find? (fun s => s ≤ c.toNat && c.toNat ≤ s + 9)).map
    (fun s => c.toNat - s)

/-- Continuation of the Python decimal integer grammar after the first
digit: further decimal digits, with single underscores allowed only
between two digits. -/
def pyDigitsRest : List Char → Nat → Option Nat
  | [], acc => some acc
  | '_' :: c :: rest, acc =>
    match pyDecimalVal c with
    | some d => pyDigitsRest rest (acc * 10 + d)
    | none => none
  | ['_'], _ => none
  | c :: rest, acc =>
    match pyDecimalVal c with
    | some d => pyDigitsRest rest (acc * 10 + d)
    | none => none

/-- The Python decimal digit-part grammar: at least one decimal digit,
then digits with single underscores between digits. -/
def pyDigits : List Char → Option Nat
  | [] => none
  | c :: rest =>
    match pyDecimalVal c with
    | some d => pyDigitsRest rest d
    | none => none

/-- Embedding of Python int(str): strip surrounding whitespace, allow
one optional ASCII sign, then a decimal digit-part over the Unicode
decimal digits; arbitrary precision, no width limit.  Returns none
where int() raises ValueError. -/
def pyIntParse (s : String) : Option Int :=
  let cs := ((s.toList.dropWhile isPySpace).reverse.dropWhile isPySpace).reverse
  match cs with
  | '+' :: rest => (pyDigits rest).map (fun n => (n : Int))
  | '-' :: rest => (pyDigits rest).map (fun n => -(n : Int))
  | rest => (pyDigits rest).map (fun n => (n : Int))

/-- Modelled from the spec wording of section 3: an id string that
parses as a 64-bit (signed) integer.  The source uses Python int(),
which has no width limit; this definition exists to compare the spec
wording with the source behaviour. -/
def parsesAsInt64 (s : String) : Bool :=
  match pyIntParse s with
  | some n => decide (-(2 ^ 63) ≤ n ∧ n < 2 ^ 63)
  | none => false

/-- A user handle as returned by bot.fetch_user. -/
structure User where
  id : Int
  deriving DecidableEq, Repr

/-- A channel handle as returned by bot.get_channel or bot.fetch_channel;
isText embeds isinstance(channel, discord.TextChannel). -/
structure Channel where
  id : Int
  isText : Bool
  deriving DecidableEq, Repr

/-- The typed exceptions of the chat client that the coroutine handles:
discord.errors.NotFound, discord.errors.Forbidden, and any other
exception. -/
inductive DiscordErr where
  | notFound
  | forbidden
  | other (msg : String)
  deriving DecidableEq, Repr

/-- The bot primitives the coroutine calls.  get_channel is the local
cache lookup and never raises; the other four may raise a typed error.
fetch_channel may also return no channel, which the source handles in
its else branch at line 188. -/
structure BotEnv where
  fetch_user : Int → Except DiscordErr User
  user_send : User → String → Except DiscordErr Unit
  get_channel : Int → Option Channel
  fetch_channel : Int → Except DiscordErr (Option Channel)
  channel_send : Channel → String → Except DiscordErr Unit

/-- The warning and error log events of send_discord_message that the
design document makes observable. -/
inductive LogEvent where
  | warnMissingUserId
  | warnInvalidUserId (s : String)
  | warnMissingChannelId
  | warnInvalidChannelId (s : String)
  | warnNotTextChannel (id : Int)
  | warnChannelNotFound (id : Int)
  | warnInvalidMode (mode : String)
  | errNotFound (targetId : Option String)
  | errForbidden (targetId : Option String)
  | errUnexpected (msg : String)
  deriving DecidableEq, Repr

/-- A send operation actually performed on the chat platform. -/
inductive SendEffect where
  | dm (u : User) (text : String)
  | channel (c : Channel) (text : String)
  deriving DecidableEq, Repr

/-- The try body of send_discord_message (main.py lines 148-192): the
branch on mode, id presence and parse checks, handle resolution, and
the send call.  A raised error propagates out of this body to the
except clauses; no send precedes a raise, so an error outcome carries
no effects. -/
def sendBody (env : BotEnv) (t : ScheduledTask) :
    Except DiscordErr (List LogEvent × List SendEffect) :=
  if t.mode == "dm" then
    if !(truthy t.user_id_str) then .ok ([.warnMissingUserId], [])
    else
      let s := t.user_id_str.getD ""
      match pyIntParse s with
      | none => .ok ([.warnInvalidUserId s], [])
      | some uid =>
        match env.fetch_user uid with
        | .error e => .error e
        | .ok u =>
          match env.user_send u t.fullMessage with
          | .error e => .error e
          | .ok _ => .ok ([], [.dm u t.fullMessage])
  else if t.mode == "channel" then
    if !(truthy t.channel_id_str) then .ok ([.warnMissingChannelId], [])
    else
      let s := t.channel_id_str.getD ""
      match pyIntParse s with
      | none => .ok ([.warnInvalidChannelId s], [])
      | some cid =>
        match (match env.get_channel cid with
               | some c => Except.ok (some c)
               | none => env.fetch_channel cid) with
        | .error e => .error e
        | .ok (some c) =>
          if c.isText then
            match env.channel_send c t.fullMessage with
            | .error e => .error e
            | .ok _ => .ok ([], [.channel c t.fullMessage])
          else .ok ([.warnNotTextChannel cid], [])
        | .ok none => .ok ([.warnChannelNotFound cid], [])
  else .ok ([.warnInvalidMode t.mode], [])

/-- The id logged by the except clauses at lines 196 and 199: the raw
user id string in dm mode, the raw channel id string otherwise. -/
def target_id (t : ScheduledTask) : Option String :=
  if t.mode == "dm" then t.user_id_str else t.channel_id_str

/-- The except clauses of lines 195-203: NotFound and Forbidden are
logged with the raw target id of the request, anything else with its
message. -/
def exceptLog (t : ScheduledTask) : DiscordErr → List LogEvent
  | .notFound => [.errNotFound (target_id t)]
  | .forbidden => [.errForbidden (target_id t)]
  | .other m => [.errUnexpected m]

/-- Embedding of the whole scheduled coroutine: the try body wrapped in
the except clauses of lines 195-203, which turn every raised error into
a logged event.  The return type is total: no error escapes. -/
def send_discord_message (env : BotEnv) (t : ScheduledTask) :
    List LogEvent × List SendEffect :=
  match sendBody env t with
  | .ok r => r
  | .error e => (exceptLog t e, [])

/-- An environment in which every resolution and send succeeds: users
exist, channels are cached text channels, sends are accepted. -/
def okEnv : BotEnv where
  fetch_user := fun uid => .ok { id := uid }
  user_send := fun _ _ => .ok ()
  get_channel := fun cid => some { id := cid, isText := true }
  fetch_channel := fun cid => .ok (some { id := cid, isText := true })
  channel_send := fun _ _ => .ok ()

/-- An environment whose user fetch raises an unexpected exception. -/
def boomEnv : BotEnv where
  fetch_user := fun _ => .error (.other "boom")
  user_send := fun _ _ => .ok ()
  get_channel := fun _ => none
  fetch_channel := fun _ => .error (.other "boom")
  channel_send := fun _ _ => .ok ()

/-- C1: the design document requires a matching api-key header for
every POST, with 401 and no side effects otherwise; the source has the
check commented out (main.py lines 93-111, marked as a temporary
security bypass, while the docstring at line 65 still says the key is
required).  This theorem records the actual behaviour at the failing
inputs: a POST with the header absent, and one with a wrong key, both
sail through, answer 200 queued, and schedule a delivery. -/
theorem C1_bypass :
    notify "right-secret" true
      { method := .POST, api_key := none, is_json := true,
        body := .obj [("mode", "dm"), ("message", "hi"), ("user_id", "5")] } =
      { status := 200, body := .queued,
        sched := some { mode := "dm", fullMessage := "hi",
                        user_id_str := some "5", channel_id_str := none } } ∧
    notify "right-secret" true
      { method := .POST, api_key := some "wrong", is_json := true,
        body := .obj [("mode", "dm"), ("message", "hi"), ("user_id", "5")] } =
      { status := 200, body := .queued,
        sched := some { mode := "dm", fullMessage := "hi",
                        user_id_str := some "5", channel_id_str := none } } := by
  decide

/-- C2 counterexample: a POST with a non-JSON content type received
while the loop is not running is answered 400, not 503, because body
validation precedes the readiness check. -/
theorem C2_counterexample :
    (notify "right-secret" false
      { method := .POST, api_key := some "right-secret",
        is_json := false, body := .badRequest }).status = 400 ∧
    ¬ (notify "right-secret" false
      { method := .POST, api_key := some "right-secret",
        is_json := false, body := .badRequest }).status = 503 := by
  decide

/-- A body with a truthy field is a non-empty object: jget on the empty
association list is none, which is falsy. -/
theorem isEmpty_false_of_truthy_jget {data : Json} {k : String}
    (h : truthy (jget data k) = true) : data.isEmpty = false := by
  cases data with
  | nil => simp [jget, truthy] at h
  | cons hd tl => rfl

/-- C2 amended: while the bot loop is not running, no POST ever
schedules a delivery, and every POST that passes body validation (JSON
content type, a body parsing to a truthy object, truthy mode and
message) is answered 503; POSTs failing validation are answered by the
validation path itself (400 or 500) before readiness is consulted. -/
theorem C2_not_ready (secret : String) (req : Request)
    (h : req.method = Method.POST) :
    (notify secret false req).sched = none ∧
    (∀ data, req.is_json = true → req.body = .obj data →
      truthy (jget data "mode") = true → truthy (jget data "message") = true →
      notify secret false req =
        { status := 503, body := .errLoopUnavailable, sched := none }) := by
  obtain ⟨m, k, ij, b⟩ := req
  change m = Method.POST at h
  subst h
  constructor
  · cases ij with
    | false => rfl
    | true =>
      cases b with
      | badRequest => rfl
      | falsyNonDict => rfl
      | truthyNonDict => rfl
      | obj data =>
        simp only [notify]
        split
        · rfl
        · split
          · rfl
          · split
            · rfl
            · rfl
  · intro data hj hb hmode hmsg
    change ij = true at hj
    change b = JsonParse.obj data at hb
    subst hj
    subst hb
    simp [notify, hmode, hmsg, isEmpty_false_of_truthy_jget hmode]

/-- C2 witness: a well-formed dm POST while the loop is down gets 503
and nothing is scheduled. -/
theorem C2_not_ready_witness :
    notify "right-secret" false
      { method := .POST, api_key := some "right-secret", is_json := true,
        body := .obj [("mode", "dm"), ("message", "hi"), ("user_id", "5")] } =
      { status := 503, body := .errLoopUnavailable, sched := none } :=
  (C2_not_ready "right-secret"
    { method := .POST, api_key := some "right-secret", is_json := true,
      body := .obj [("mode", "dm"), ("message", "hi"), ("user_id", "5")] }
    rfl).2 [("mode", "dm"), ("message", "hi"), ("user_id", "5")] rfl rfl
    (by decide) (by decide)

/-- C3 counterexample: a GET received while the loop is not running is
still answered 200 with the fixed awake payload, never 503, and the
payload does not report readiness. -/
theorem C3_counterexample :
    notify "right-secret" false
      { method := .GET, api_key := none, is_json := false, body := .badRequest } =
      { status := 200, body := .getAwake, sched := none } ∧
    ¬ (notify "right-secret" false
      { method := .GET, api_key := none, is_json := false, body := .badRequest }).status = 503 := by
  decide

/-- C3 amended: every GET is answered 200 with the same fixed status
payload, with no api-key requirement, independently of the readiness
flag, and with nothing scheduled and no state mutated. -/
theorem C3_get_fixed (secret : String) (ready : Bool) (req : Request)
    (h : req.method = Method.GET) :
    notify secret ready req = { status := 200, body := .getAwake, sched := none } := by
  obtain ⟨m, k, ij, b⟩ := req
  change m = Method.GET at h
  subst h
  rfl

/-- C3 witness: a concrete unauthenticated GET while not ready. -/
theorem C3_get_fixed_witness :
    notify "right-secret" false
      { method := .GET, api_key := none, is_json := false, body := .badRequest } =
      { status := 200, body := .getAwake, sched := none } :=
  C3_get_fixed "right-secret" false
    { method := .GET, api_key := none, is_json := false, body := .badRequest } rfl

/-- C4: the design document promises 400 with a reason distinguishing
"not structured content" from "structured but empty/unparseable", and
the log message at main.py line 121 shows line 122 was written to
cover "empty or invalid body"; but get_json (default silent=False)
raises BadRequest on an empty or unparseable body, so that branch is
unreachable for those inputs: the outer except clause answers 500
instead, and the 400 of line 122 fires only for a body that parses to
a falsy value.  This theorem records the actual behaviour at the
failing input (a JSON-typed unparseable or empty body gets 500 with
the generic internal-error reason and nothing scheduled) next to the
two reachable 400 reasons; in all cases no delivery is scheduled. -/
theorem C4_unparseable_500 :
    notify "right-secret" true
      { method := .POST, api_key := some "right-secret",
        is_json := true, body := .badRequest } =
      { status := 500, body := .errInternal, sched := none } ∧
    notify "right-secret" true
      { method := .POST, api_key := some "right-secret",
        is_json := false, body := .badRequest } =
      { status := 400, body := .errNotJson, sched := none } ∧
    notify "right-secret" true
      { method := .POST, api_key := some "right-secret",
        is_json := true, body := .falsyNonDict } =
      { status := 400, body := .errEmptyJson, sched := none } := by
  decide

/-- C5: a validated POST is accepted with 200 queued even when the id
field correlated with its mode is absent; downstream, a dm task with no
truthy user id (and a channel task with no truthy channel id) logs one
warning and performs no send, in every environment, and running such a
dm task twice yields two warnings and still no send. -/
theorem C5_soft_missing_id (secret : String) (req : Request) (data : Json)
    (env : BotEnv) (t : ScheduledTask)
    (hm : req.method = Method.POST) (hj : req.is_json = true)
    (hb : req.body = .obj data)
    (hmode : truthy (jget data "mode") = true)
    (hmsg : truthy (jget data "message") = true) :
    notify secret true req =
      { status := 200, body := .queued, sched := some (mkTask data) } ∧
    (t.mode = "dm" → truthy t.user_id_str = false →
      send_discord_message env t = ([.warnMissingUserId], []) ∧
      (send_discord_message env t).1 ++ (send_discord_message env t).1 =
        [.warnMissingUserId, .warnMissingUserId] ∧
      (send_discord_message env t).2 ++ (send_discord_message env t).2 = []) ∧
    (t.mode = "channel" → truthy t.channel_id_str = false →
      send_discord_message env t = ([.warnMissingChannelId], [])) := by
  obtain ⟨m, k, ij, b⟩ := req
  change m = Method.POST at hm
  change ij = true at hj
  change b = JsonParse.obj data at hb
  subst hm
  subst hj
  subst hb
  refine ⟨by simp [notify, hmode, hmsg, isEmpty_false_of_truthy_jget hmode], ?_, ?_⟩
  · intro h1 h2
    have hr : send_discord_message env t = ([.warnMissingUserId], []) := by
      simp [send_discord_message, sendBody, h1, h2]
    exact ⟨hr, by rw [hr]; rfl, by rw [hr]; rfl⟩
  · intro h1 h2
    simp [send_discord_message, sendBody, h1, h2]

/-- C5 witness: a dm POST with no user_id is queued with 200, and the
resulting task warns once per run and never sends. -/
theorem C5_soft_missing_id_witness :
    notify "right-secret" true
      { method := .POST, api_key := some "right-secret", is_json := true,
        body := .obj [("mode", "dm"), ("message", "hi")] } =
      { status := 200, body := .queued,
        sched := some { mode := "dm", fullMessage := "hi",
                        user_id_str := none, channel_id_str := none } } ∧
    send_discord_message okEnv
      { mode := "dm", fullMessage := "hi",
        user_id_str := none, channel_id_str := none } =
      ([.warnMissingUserId], []) := by
  have h := C5_soft_missing_id "right-secret"
    { method := .POST, api_key := some "right-secret", is_json := true,
      body := .obj [("mode", "dm"), ("message", "hi")] }
    [("mode", "dm"), ("message", "hi")] okEnv
    { mode := "dm", fullMessage := "hi",
      user_id_str := none, channel_id_str := none }
    rfl rfl rfl (by decide) (by decide)
  exact ⟨h.1, (h.2.1 rfl rfl).1⟩

/-- C6: the composed text is the message, a blank line, then the link
when the link is non-empty, and the message alone when the link is
empty or absent from the body; on the concrete channel example of the
design document the composed text is sent as-is to channel 999. -/
theorem C6_compose (message link : String) :
    (link ≠ "" → full_message message link = message ++ "\n\n" ++ link) ∧
    full_message message "" = message ∧
    (∀ data : Json, jget data "link" = none →
      (mkTask data).fullMessage = (jget data "message").getD "") ∧
    full_message "hello" "http://x" = "hello\n\nhttp://x" ∧
    send_discord_message okEnv
      { mode := "channel", fullMessage := full_message "hello" "http://x",
        user_id_str := none, channel_id_str := some "999" } =
      ([], [.channel { id := 999, isText := true } "hello\n\nhttp://x"]) := by
  have he : ("" : String).isEmpty = true := rfl
  refine ⟨?_, by simp [full_message, he], ?_, by decide, by decide⟩
  · intro hne
    simp [full_message, String.isEmpty_iff, hne]
  · intro data hnone
    simp [mkTask, hnone, full_message, he]

/-- C6 witness: the concrete composition of the design document. -/
theorem C6_compose_witness :
    full_message "hello" "http://x" = "hello\n\nhttp://x" :=
  (C6_compose "hello" "http://x").1 (by decide)

/-- C7 counterexample: the string 18446744073709551616 is 2 to the 64
and does not parse as a 64-bit integer, yet the delivery neither warns
nor stops: Python int() has no width limit, so the code fetches the
user and performs the send. -/
theorem C7_counterexample :
    parsesAsInt64 "18446744073709551616" = false ∧
    send_discord_message okEnv
      { mode := "dm", fullMessage := "hi",
        user_id_str := some "18446744073709551616", channel_id_str := none } =
      ([], [.dm { id := 18446744073709551616 } "hi"]) := by
  decide

/-- C7 amended: the id string selected by the mode must parse as an
integer in the Python sense, with no width restriction; whenever it
does not parse, the delivery logs an invalid-format warning and stops
with no send, in every environment. -/
theorem C7_int_parse (env : BotEnv) (t : ScheduledTask) :
    (t.mode = "dm" → truthy t.user_id_str = true →
      pyIntParse (t.user_id_str.getD "") = none →
      send_discord_message env t =
        ([.warnInvalidUserId (t.user_id_str.getD "")], [])) ∧
    (t.mode = "channel" → truthy t.channel_id_str = true →
      pyIntParse (t.channel_id_str.getD "") = none →
      send_discord_message env t =
        ([.warnInvalidChannelId (t.channel_id_str.getD "")], [])) := by
  constructor
  · intro h1 h2 h3
    simp [send_discord_message, sendBody, h1, h2, h3]
  · intro h1 h2 h3
    simp [send_discord_message, sendBody, h1, h2, h3]

/-- C7 witness: a non-numeric user id warns and does not send. -/
theorem C7_int_parse_witness :
    send_discord_message okEnv
      { mode := "dm", fullMessage := "hi",
        user_id_str := some "abc", channel_id_str := none } =
      ([.warnInvalidUserId "abc"], []) :=
  (C7_int_parse okEnv
    { mode := "dm", fullMessage := "hi",
      user_id_str := some "abc", channel_id_str := none }).1
    rfl (by decide) (by decide)

/-- C8: in channel mode with a parsed id, resolution prefers the local
cache (on a cache hit the out-of-band fetch is never consulted, so its
behaviour is irrelevant); a resolved handle that does not support text
sending yields a warning and no send, an unresolved channel yields a
warning and no send, and otherwise the composed text is sent to the
resolved channel. -/
theorem C8_channel_path (env : BotEnv) (t : ScheduledTask) (cid : Int)
    (c : Channel) (hm : t.mode = "channel")
    (hid : truthy t.channel_id_str = true)
    (hp : pyIntParse (t.channel_id_str.getD "") = some cid) :
    (env.get_channel cid = some c →
      (∀ f, send_discord_message { env with fetch_channel := f } t =
        send_discord_message env t) ∧
      (c.isText = true → env.channel_send c t.fullMessage = Except.ok () →
        send_discord_message env t = ([], [.channel c t.fullMessage])) ∧
      (c.isText = false →
        send_discord_message env t = ([.warnNotTextChannel cid], []))) ∧
    (env.get_channel cid = none → env.fetch_channel cid = Except.ok (some c) →
      (c.isText = true → env.channel_send c t.fullMessage = Except.ok () →
        send_discord_message env t = ([], [.channel c t.fullMessage])) ∧
      (c.isText = false →
        send_discord_message env t = ([.warnNotTextChannel cid], []))) ∧
    (env.get_channel cid = none → env.fetch_channel cid = Except.ok none →
      send_discord_message env t = ([.warnChannelNotFound cid], [])) := by
  refine ⟨?_, ?_, ?_⟩
  · intro hcache
    refine ⟨?_, ?_, ?_⟩
    · intro f
      simp [send_discord_message, sendBody, hm, hid, hp, hcache]
    · intro htext hsend
      simp [send_discord_message, sendBody, hm, hid, hp, hcache, htext, hsend]
    · intro htext
      simp [send_discord_message, sendBody, hm, hid, hp, hcache, htext]
  · intro hcache hfetch
    refine ⟨?_, ?_⟩
    · intro htext hsend
      simp [send_discord_message, sendBody, hm, hid, hp, hcache, hfetch, htext, hsend]
    · intro htext
      simp [send_discord_message, sendBody, hm, hid, hp, hcache, hfetch, htext]
  · intro hcache hfetch
    simp [send_discord_message, sendBody, hm, hid, hp, hcache, hfetch]

/-- C8 witness: a cached text channel 999 receives the composed text. -/
theorem C8_channel_path_witness :
    send_discord_message okEnv
      { mode := "channel", fullMessage := "hello",
        user_id_str := none, channel_id_str := some "999" } =
      ([], [.channel { id := 999, isText := true } "hello"]) :=
  ((C8_channel_path okEnv
    { mode := "channel", fullMessage := "hello",
      user_id_str := none, channel_id_str := some "999" }
    999 { id := 999, isText := true }
    rfl (by decide) (by decide)).1 rfl).2.1 rfl rfl

/-- C9: every error the try body raises, not-found, forbidden, or any
other exception, is absorbed by the except clauses of the scheduled
unit: the unit returns normally with a logged event carrying the target
id and performs no send, so nothing escapes into the loop. -/
theorem C9_no_escape (env : BotEnv) (t : ScheduledTask) (e : DiscordErr)
    (h : sendBody env t = .error e) :
    send_discord_message env t = (exceptLog t e, []) ∧
    (send_discord_message env t).2 = [] := by
  unfold send_discord_message
  rw [h]
  exact ⟨rfl, rfl⟩

/-- C9 witness: a user fetch that raises an unexpected exception is
logged by the catch-all clause and nothing is sent. -/
theorem C9_no_escape_witness :
    send_discord_message boomEnv
      { mode := "dm", fullMessage := "hi",
        user_id_str := some "5", channel_id_str := none } =
      ([LogEvent.errUnexpected "boom"], []) :=
  (C9_no_escape boomEnv
    { mode := "dm", fullMessage := "hi",
      user_id_str := some "5", channel_id_str := none }
    (DiscordErr.other "boom") rfl).1

/-- C10: a valid POST whose mode is a non-empty string other than dm
and channel is still queued with 200 while the loop runs, and the
scheduled task only logs an invalid-mode warning and performs no send,
in every environment. -/
theorem C10_unknown_mode (secret : String) (req : Request) (data : Json)
    (env : BotEnv) (hm : req.method = Method.POST) (hj : req.is_json = true)
    (hb : req.body = .obj data)
    (hmode : truthy (jget data "mode") = true)
    (hmsg : truthy (jget data "message") = true)
    (hd : (jget data "mode").getD "" ≠ "dm")
    (hc : (jget data "mode").getD "" ≠ "channel") :
    notify secret true req =
      { status := 200, body := .queued, sched := some (mkTask data) } ∧
    send_discord_message env (mkTask data) =
      ([.warnInvalidMode ((jget data "mode").getD "")], []) := by
  obtain ⟨m, k, ij, b⟩ := req
  change m = Method.POST at hm
  change ij = true at hj
  change b = JsonParse.obj data at hb
  subst hm
  subst hj
  subst hb
  refine ⟨by simp [notify, hmode, hmsg, isEmpty_false_of_truthy_jget hmode], ?_⟩
  simp [send_discord_message, sendBody, mkTask, hd, hc]

/-- C10 witness: mode broadcast is queued and then only warned about. -/
theorem C10_unknown_mode_witness :
    notify "right-secret" true
      { method := .POST, api_key := some "right-secret", is_json := true,
        body := .obj [("mode", "broadcast"), ("message", "hi")] } =
      { status := 200, body := .queued,
        sched := some (mkTask [("mode", "broadcast"), ("message", "hi")]) } ∧
    send_discord_message okEnv (mkTask [("mode", "broadcast"), ("message", "hi")]) =
      ([.warnInvalidMode "broadcast"], []) :=
  C10_unknown_mode "right-secret"
    { method := .POST, api_key := some "right-secret", is_json := true,
      body := .obj [("mode", "broadcast"), ("message", "hi")] }
    [("mode", "broadcast"), ("message", "hi")] okEnv
    rfl rfl rfl (by decide) (by decide) (by decide) (by decide)

end FSBot
